import Mathlib

/-!
Verification development for the AdMob revenue forecaster core
(`src/forecasting.py`, `src/data_processor.py`).

Shallow embedding conventions:
* a pandas `DataFrame` carrying a revenue series is a `DataFrame`:
  a flag recording whether its index is already a `DatetimeIndex`,
  plus rows `(date, revenue)`; dates are day numbers (`Int`), revenue
  values are `ℚ` (Python floats are modelled exactly as rationals),
  and a missing value (`NaN`) is `Option.none`;
* the statsmodels `SARIMAX(...).fit` call is an oracle parameter of type
  `SarimaxFit` (endogenous values, order, seasonal order, returning
  `none` when estimation raises/fails to converge and otherwise a
  `FittedModel` whose prediction functions stand for
  `get_forecast(...).predicted_mean` / `conf_int(alpha)`);
* the `adfuller` / `kpss` statistical tests are oracles returning their
  p-value, `none` when the call raises;
* Python code that catches every exception and returns an empty
  DataFrame / empty dict / `False` is modelled by returning `[]` /
  `Option.none` / `false` on the corresponding paths.
-/

/-- Ordering of rows by their date component (`sort_index`). -/
def dateLe {α : Type} (a b : Int × α) : Prop := a.1 ≤ b.1

instance {α : Type} : DecidableRel (@dateLe α) :=
  fun a b => inferInstanceAs (Decidable (a.1 ≤ b.1))

instance {α : Type} : IsTotal (Int × α) dateLe :=
  ⟨fun a b => Int.le_total a.1 b.1⟩

instance {α : Type} : IsTrans (Int × α) dateLe :=
  ⟨fun _ _ _ h1 h2 => le_trans h1 h2⟩

/-- Blueprint of `data.index.duplicated(keep="first")` followed by boolean
masking: a row survives exactly when its date has not been seen before.
`seen` accumulates the dates of rows already kept. -/
def dedupSeen {α : Type} (seen : List Int) : List (Int × α) → List (Int × α)
  | [] => []
  | r :: rs =>
    if r.1 ∈ seen then dedupSeen seen rs
    else r :: dedupSeen (r.1 :: seen) rs

/-- Remove duplicate dates keeping the first occurrence
(`data[~data.index.duplicated(keep="first")]`). -/
def dedupKeepFirst {α : Type} (l : List (Int × α)) : List (Int × α) :=
  dedupSeen [] l

/-- Sort rows by date, then drop duplicate dates keeping the first
occurrence, exactly the two steps of `prepare_data` at
`forecasting.py` lines 44-47. -/
def sortDedup {α : Type} (l : List (Int × α)) : List (Int × α) :=
  dedupKeepFirst (List.insertionSort dateLe l)

/-- Value pipeline of `SARIMAForecaster.prepare_data` applied to each
revenue cell after sorting/deduplication: `fillna(0)`, `clip(lower=0)`,
then the `+ 1e-6` stabilising constant (lines 54-60). -/
def prepareValue (v : Option ℚ) : ℚ :=
  max (v.getD 0) 0 + 1/1000000

/-- Row-level embedding of `SARIMAForecaster.prepare_data`
(`forecasting.py` lines 34-63): sort by date, deduplicate keeping the
first occurrence, fill missing revenue with 0, clip negatives to 0, and
add `1e-6` to every value.  The returned list is the prepared series. -/
def prepare_rows (l : List (Int × Option ℚ)) : List (Int × ℚ) :=
  (sortDedup l).map (fun r => (r.1, prepareValue r.2))

/-- Re-inject a prepared series as raw input (all values present), to
express applying `prepare_data` to its own output. -/
def reinject (l : List (Int × ℚ)) : List (Int × Option ℚ) :=
  l.map (fun r => (r.1, some r.2))

/-- Caller-visible pandas frame: whether the index is a `DatetimeIndex`,
and the rows (date, revenue). -/
structure DataFrame where
  dateIndexed : Bool
  rows : List (Int × Option ℚ)
deriving DecidableEq

/-- Embedding of `SARIMAForecaster.prepare_data` including its effect on
the caller's frame.  When the input frame is not date-indexed, lines
40-41 execute `data["date"] = pd.to_datetime(data["date"])` and
`data.set_index("date", inplace=True)`, which mutate the caller's
object in place (all later steps rebind the local `data` to fresh
frames).  The first component is the caller's frame after the call; the
second is the prepared series returned to the caller. -/
def prepare_data (data : DataFrame) : DataFrame × List (Int × ℚ) :=
  (if data.dateIndexed then data else { data with dateIndexed := true },
   prepare_rows data.rows)

/-! Stationarity analysis (`SARIMAForecaster.check_stationarity`,
`forecasting.py` lines 69-96). -/

/-- Result record of `check_stationarity`. -/
structure StationarityResult where
  adf_stationary : Bool
  kpss_stationary : Bool
  is_stationary : Bool
deriving DecidableEq

/-- A unit-root test oracle: given the series (after `dropna()`), return
the p-value of the test, or `none` when the underlying call raises. -/
def TestOracle : Type := List ℚ → Option ℚ

/-- Embedding of `SARIMAForecaster.check_stationarity`: ADF stationary
iff its p-value `< 0.05`, KPSS stationary iff its p-value `> 0.05`,
`is_stationary` the conjunction; if either test raises, the `except`
branch returns all three flags `False`. -/
def check_stationarity (adfO kpssO : TestOracle) (series : List (Option ℚ)) :
    StationarityResult :=
  let s := series.filterMap id
  match adfO s with
  | none => ⟨false, false, false⟩
  | some pa =>
    match kpssO s with
    | none => ⟨false, false, false⟩
    | some pk =>
      ⟨decide (pa < 5/100), decide (pk > 5/100),
       decide (pa < 5/100) && decide (pk > 5/100)⟩

/-! SARIMAX estimation oracle and automatic order selection. -/

/-- Abstract view of a statsmodels fit result: the out-of-sample
prediction function (`get_forecast(steps).predicted_mean`, indexed by
step), the confidence bounds (`conf_int(alpha)`, indexed by alpha and
step), and the achieved AIC. -/
structure FittedModel where
  predicted_mean : ℕ → ℚ
  conf_lower : ℚ → ℕ → ℚ
  conf_upper : ℚ → ℕ → ℚ
  aic : ℚ

/-- Oracle for `SARIMAX(endog, order, seasonal_order).fit(...)`:
`none` models any exception or non-convergence, `some` a successful
estimation. -/
def SarimaxFit : Type := List ℚ → List ℤ → List ℤ → Option FittedModel

/-- Configuration values read through `config.get`: the stored
`forecast_settings.sarima_order` and `forecast_settings.seasonal_order`
lists (defaults `[1,1,1]` and `[1,1,1,7]`). -/
structure Config where
  sarima_order : List ℤ := [1, 1, 1]
  seasonal_order : List ℤ := [1, 1, 1, 7]
deriving DecidableEq

/-- Embedding of `Config.validate_sarima_parameters` (`config.py` lines
180-205): `order` must be a 3-element integer list, `seasonal_order` a
4-element integer list, all entries non-negative. -/
def validate_sarima_parameters (order seasonal_order : List ℤ) : Bool :=
  order.length == 3 && seasonal_order.length == 4 &&
    (order ++ seasonal_order).all (fun x => decide (0 ≤ x))

/-- Ascending enumeration of the `(p, d, q)` cuboid scanned by the three
nested loops of `auto_arima_order` (`forecasting.py` lines 107-109). -/
def candidateOrders (max_p max_d max_q : ℕ) : List (ℕ × ℕ × ℕ) :=
  (List.range (max_p + 1)).flatMap (fun p =>
    (List.range (max_d + 1)).flatMap (fun d =>
      (List.range (max_q + 1)).map (fun q => (p, d, q))))

/-- AIC obtained for one candidate order: the grid search always fits
with `seasonal_order=(0,0,0,0)` (line 112); a raising candidate is
`none` (the bare `except: continue`). -/
def aicOf (sfit : SarimaxFit) (data : List ℚ) (c : ℕ × ℕ × ℕ) : Option ℚ :=
  (sfit data [(c.1 : ℤ), (c.2.1 : ℤ), (c.2.2 : ℤ)] [0, 0, 0, 0]).map FittedModel.aic

/-- Comparison against the running best: `fitted.aic < best_aic`, with
`none` standing for the initial `np.inf`. -/
def ltBest (a : ℚ) : Option ℚ → Bool
  | none => true
  | some b => decide (a < b)

/-- One iteration of the grid-search loop body (lines 110-119). -/
def autoStep (aicO : ℕ × ℕ × ℕ → Option ℚ) (st : Option ℚ × (ℕ × ℕ × ℕ))
    (c : ℕ × ℕ × ℕ) : Option ℚ × (ℕ × ℕ × ℕ) :=
  match aicO c with
  | none => st
  | some a => if ltBest a st.1 then (some a, c) else st

/-- Embedding of `SARIMAForecaster.auto_arima_order` (`forecasting.py`
lines 98-128): fold the loop body over the ascending candidate
enumeration starting from `best_aic = np.inf`, `best_order = (1,1,1)`. -/
def auto_arima_order (sfit : SarimaxFit) (data : List ℚ)
    (max_p : ℕ := 3) (max_d : ℕ := 2) (max_q : ℕ := 3) : ℕ × ℕ × ℕ :=
  ((candidateOrders max_p max_d max_q).foldl
    (autoStep (aicOf sfit data)) (none, (1, 1, 1))).2

/-! Model fitting and forecasting (`SARIMAForecaster.fit_model` /
`forecast`, `forecasting.py` lines 130-226). -/

/-- Instance state of a `SARIMAForecaster` relevant to forecasting: the
`self.fitted_model` slot (starts `None`) and the `self.original_data`
prepared series stored by the last `fit_model` call (starts `None`,
modelled as the empty series, which produces the same `IndexError` →
empty-result behaviour in `forecast`). -/
structure ForecasterState where
  fitted_model : Option FittedModel
  original_data : List (Int × ℚ)

/-- Orders actually passed to `SARIMAX` by `fit_model` (lines 146-158):
take the caller's orders or the configured defaults, and if
`validate_sarima_parameters` rejects them fall back to
`auto_arima_order` with seasonal order `(1,1,1,7)`. -/
def effective_orders (sfit : SarimaxFit) (cfg : Config)
    (prepared : List (Int × ℚ)) (order seasonal_order : Option (List ℤ)) :
    List ℤ × List ℤ :=
  let ord := order.getD cfg.sarima_order
  let seas := seasonal_order.getD cfg.seasonal_order
  if validate_sarima_parameters ord seas then (ord, seas)
  else
    let t := auto_arima_order sfit (prepared.map Prod.snd)
    ([(t.1 : ℤ), (t.2.1 : ℤ), (t.2.2 : ℤ)], [1, 1, 1, 7])

/-- Embedding of `SARIMAForecaster.fit_model` (`forecasting.py` lines
130-184).  It prepares the data, stores the prepared copy in
`original_data` (this happens before the estimation attempt), resolves
the orders, and attempts the SARIMAX estimation; on success it stores
the new fitted model and returns `True`, on any exception the blanket
handler returns `False` (the previous `fitted_model` is untouched
because the assignment never executed).  Note the method contains no
minimum-observation check of any kind. -/
def fit_model (sfit : SarimaxFit) (cfg : Config) (st : ForecasterState)
    (data : DataFrame) (order : Option (List ℤ) := none)
    (seasonal_order : Option (List ℤ) := none) : ForecasterState × Bool :=
  let prepared := prepare_rows data.rows
  let eo := effective_orders sfit cfg prepared order seasonal_order
  match sfit (prepared.map Prod.snd) eo.1 eo.2 with
  | some fm => ({ fitted_model := some fm, original_data := prepared }, true)
  | none => ({ fitted_model := st.fitted_model, original_data := prepared }, false)

/-- One row of the forecast frame built at lines 200-216:
`(date, forecast, lower_ci, upper_ci)`. -/
structure ForecastRow where
  date : Int
  forecast : ℚ
  lower_ci : ℚ
  upper_ci : ℚ

/-- Embedding of `SARIMAForecaster.forecast` (`forecasting.py` lines
186-226).  If no model has been fitted, the `ValueError` raised at line
191 is swallowed by the blanket handler, which returns an empty
DataFrame (`[]`).  If `original_data` is empty, `index[-1]` raises and
the handler likewise returns `[]`.  Otherwise the rows carry
`pd.date_range(last_date + 1 day, periods=steps, freq="D")` as dates,
the oracle's predicted mean, and the `conf_int(alpha=1-confidence_level)`
bounds. -/
def forecast (st : ForecasterState) (steps : ℕ)
    (confidence_level : ℚ := 95/100) : List ForecastRow :=
  match st.fitted_model with
  | none => []
  | some fm =>
    match st.original_data.getLast? with
    | none => []
    | some last =>
      (List.range steps).map (fun (i : ℕ) =>
        { date := last.1 + 1 + (i : Int),
          forecast := fm.predicted_mean i,
          lower_ci := fm.conf_lower (1 - confidence_level) i,
          upper_ci := fm.conf_upper (1 - confidence_level) i })

/-! Backtesting (`SARIMAForecaster.backtest`, `forecasting.py` lines
228-301). -/

/-- Metrics record of a backtest.  The code also stores
`rmse = np.sqrt(mse)`; a square root is irrational in general, so it is
expressed in the theorems as `Real.sqrt` of the stored `mse`. -/
structure BacktestMetrics where
  mae : ℚ
  mse : ℚ
  mape : ℚ

/-- Result dict of a successful backtest (lines 284-291). -/
structure BacktestResult where
  train_data : List (Int × ℚ)
  test_data : List (Int × ℚ)
  forecast_data : List (Int × Option ForecastRow)
  metrics : BacktestMetrics
  test_period : Int × Int

/-- Train/test split of lines 236-238: `iloc[:-test_days]` /
`iloc[-test_days:]`.  Python slicing quirk: when `test_days = 0`,
`iloc[:-0]` is the empty frame and `iloc[-0:]` is the whole frame. -/
def backtestSplit (prepared : List (Int × ℚ)) (test_days : ℕ) :
    List (Int × ℚ) × List (Int × ℚ) :=
  if test_days = 0 then ([], prepared)
  else (prepared.take (prepared.length - test_days),
        prepared.drop (prepared.length - test_days))

/-- Mean of a list of rationals (`np.mean`). -/
def qmean (l : List ℚ) : ℚ := l.sum / l.length

/-- Reindex lookup (line 259): the forecast row whose date equals the
requested test date, `none` (a `NaN` row) when the date is absent. -/
def lookupRow (fdf : List ForecastRow) (d : Int) : Option ForecastRow :=
  fdf.find? (fun row => decide (row.date = d))

/-- Valid aligned (actual, forecast) pairs of lines 262-268: the test
series never contains `NaN` after preparation, so a pair is dropped
exactly when the reindexed forecast value is missing. -/
def alignedPairs (test_data : List (Int × ℚ))
    (forecast_data : List (Int × Option ForecastRow)) : List (ℚ × ℚ) :=
  (test_data.zip forecast_data).filterMap
    (fun p => (p.2.2).map (fun row => (p.1.2, row.forecast)))

/-- Error metrics of lines 273-282: `mean_absolute_error`,
`mean_squared_error`, and the MAPE expression
`np.mean(np.abs((actual - forecast) / (actual + 1e-8))) * 100`. -/
def metricsOf (pairs : List (ℚ × ℚ)) : BacktestMetrics :=
  { mae := qmean (pairs.map (fun p => |p.1 - p.2|)),
    mse := qmean (pairs.map (fun p => (p.1 - p.2) ^ 2)),
    mape := qmean (pairs.map (fun p => |(p.1 - p.2) / (p.1 + 1/100000000)|)) * 100 }

/-- The MAPE formula as the specification words it:
`mean(|actual − forecast| / (|actual| + 1e-8)) × 100`.  Written from the
spec, to be compared against the code's `metricsOf`. -/
def mapeSpec (pairs : List (ℚ × ℚ)) : ℚ :=
  qmean (pairs.map (fun p => |p.1 - p.2| / (|p.1| + 1/100000000))) * 100

/-- Embedding of `SARIMAForecaster.backtest` (`forecasting.py` lines
228-301).  Every raise inside the `try` block is caught by the blanket
handler, which returns the empty dict (`none` here): insufficient
training data (line 240), a failed fit (line 249), an empty forecast
(line 255), and zero valid aligned pairs (line 270).  A fresh
`SARIMAForecaster` instance is used for the internal fit (line 248), so
the training series is prepared a second time inside `fit_model`. -/
def backtest (sfit : SarimaxFit) (cfg : Config) (data : DataFrame)
    (test_months : ℕ := 3) : Option BacktestResult :=
  let prepared := prepare_rows data.rows
  let split := backtestSplit prepared (test_months * 30)
  let train_data := split.1
  let test_data := split.2
  if train_data.length < 30 then none
  else
    match fit_model sfit cfg ⟨none, []⟩
        ⟨true, train_data.map (fun r => (r.1, some r.2))⟩ none none with
    | (_, false) => none
    | (st, true) =>
      let fdf := forecast st test_data.length
      if fdf.isEmpty then none
      else
        let reindexed := test_data.map (fun r => (r.1, lookupRow fdf r.1))
        let pairs := alignedPairs test_data reindexed
        if pairs.isEmpty then none
        else some
          { train_data := train_data, test_data := test_data,
            forecast_data := reindexed, metrics := metricsOf pairs,
            test_period := ((test_data.map Prod.fst).head?.getD 0,
                            (test_data.map Prod.fst).getLast?.getD 0) }

/-! Data cleaning (`DataProcessor.clean_data`, `data_processor.py` lines
110-162), the series-preparation step the UI pipeline applies to fetched
data before any forecasting run (`ui.py` line 900). -/

/-- Revenue column after `fillna(0)` and `clip(lower=0)`
(`data_processor.py` lines 138-141). -/
def fillClip (vs : List (Option ℚ)) : List ℚ :=
  vs.map (fun v => max (v.getD 0) 0)

/-- Linear-interpolation quantile, the default of pandas
`Series.quantile`: with the values sorted ascending and
`h = q * (n - 1)`, interpolate between positions `⌊h⌋` and `⌊h⌋ + 1`.
Returns 0 for an empty list (`clean_data` never reaches the quantile on
an empty frame, line 114). -/
def quantileLinear (q : ℚ) (vs : List ℚ) : ℚ :=
  let s := List.insertionSort (· ≤ ·) vs
  match s with
  | [] => 0
  | _ =>
    let h : ℚ := q * ((s.length : ℚ) - 1)
    let i : ℕ := (Int.floor h).toNat
    match s.get? i, s.get? (i + 1) with
    | some lo, some hi => lo + (h - (i : ℚ)) * (hi - lo)
    | some lo, none => lo
    | none, _ => 0

/-- Outlier threshold of lines 144-145: ten times the 95th percentile of
the filled/clipped revenue column. -/
def outlier_threshold (f : List ℚ) : ℚ :=
  quantileLinear (95/100) f * 10

/-- Revenue column produced by `clean_data` (lines 136-152): fill, clip,
then cap every value strictly above the outlier threshold at the
threshold; the masked assignment only runs when at least one outlier
exists (`if outliers.any()`), otherwise the column is untouched. -/
def clean_revenue (vs : List (Option ℚ)) : List ℚ :=
  let f := fillClip vs
  let t := outlier_threshold f
  if f.any (fun x => decide (t < x)) then
    f.map (fun x => if t < x then t else x)
  else f

/-- Number of capped points reported by the warning log at line 150
(`outliers.sum()`). -/
def cappedOutlierCount (vs : List (Option ℚ)) : ℕ :=
  let f := fillClip vs
  f.countP (fun x => decide (outlier_threshold f < x))

/-! Concrete instances used by the closed witness and counterexample
theorems below. -/

/-- A fixed fit result used for concrete instances. -/
def fmConst : FittedModel :=
  { predicted_mean := fun _ => 0, conf_lower := fun _ _ => 0,
    conf_upper := fun _ _ => 0, aic := 0 }

/-- An estimation oracle that always succeeds (statsmodels does fit a
short constant series without raising). -/
def constFit : SarimaxFit := fun _ _ _ => some fmConst

/-- The default configuration values. -/
def cfg0 : Config := {}

/-- A one-day date-indexed frame. -/
def frame1 : DataFrame := { dateIndexed := true, rows := [(0, some 1)] }

/-- A ten-day constant-revenue date-indexed frame. -/
def frame10 : DataFrame :=
  { dateIndexed := true,
    rows := (List.range 10).map (fun i => ((i : Int), some (1 : ℚ))) }

/-- A 100-day constant-revenue date-indexed frame. -/
def frame100 : DataFrame :=
  { dateIndexed := true,
    rows := (List.range 100).map (fun i => ((i : Int), some (1 : ℚ))) }

/-- A 60-day constant-revenue date-indexed frame: with a one-month test
window this gives a 30-day training series, so the backtest succeeds. -/
def frame60 : DataFrame :=
  { dateIndexed := true,
    rows := (List.range 60).map (fun i => ((i : Int), some (1 : ℚ))) }

/-- The intermediate values of `backtest constFit cfg0 frame60 1`,
spelled out so the successful run can be named in a closed theorem. -/
def bt60train : List (Int × ℚ) :=
  (backtestSplit (prepare_rows frame60.rows) 30).1

/-- Test suffix of the 60-day backtest. -/
def bt60test : List (Int × ℚ) :=
  (backtestSplit (prepare_rows frame60.rows) 30).2

/-- Forecaster state after the internal fit of the 60-day backtest. -/
def bt60state : ForecasterState :=
  { fitted_model := some fmConst,
    original_data := prepare_rows (bt60train.map (fun r => (r.1, some r.2))) }

/-- Reindexed forecast frame of the 60-day backtest. -/
def bt60reindexed : List (Int × Option ForecastRow) :=
  bt60test.map (fun r => (r.1, lookupRow (forecast bt60state bt60test.length) r.1))

/-- Result of the successful 60-day backtest. -/
def bt60result : BacktestResult :=
  { train_data := bt60train, test_data := bt60test,
    forecast_data := bt60reindexed,
    metrics := metricsOf (alignedPairs bt60test bt60reindexed),
    test_period := ((bt60test.map Prod.fst).head?.getD 0,
                    (bt60test.map Prod.fst).getLast?.getD 0) }

/-! Basic lemmas about sorting/deduplication. -/

theorem dedupSeen_sublist {α : Type} (seen : List Int) (l : List (Int × α)) :
    (dedupSeen seen l).Sublist l := by
  induction l generalizing seen with
  | nil => simp [dedupSeen]
  | cons r rs ih =>
    simp only [dedupSeen]
    split
    · exact (ih seen).trans (List.sublist_cons_self r rs)
    · exact (ih (r.1 :: seen)).cons₂ r

theorem mem_dedupSeen {α : Type} {seen : List Int} {l : List (Int × α)}
    {x : Int × α} (hx : x ∈ dedupSeen seen l) : x.1 ∉ seen := by
  induction l generalizing seen with
  | nil => simp [dedupSeen] at hx
  | cons r rs ih =>
    simp only [dedupSeen] at hx
    split at hx
    · exact ih hx
    · rcases List.mem_cons.mp hx with h | h
      · subst h; assumption
      · intro hm
        exact ih h (List.mem_cons_of_mem _ hm)

theorem dedupSeen_pairwise {α : Type} (seen : List Int) (l : List (Int × α)) :
    (dedupSeen seen l).Pairwise (fun a b => a.1 ≠ b.1) := by
  induction l generalizing seen with
  | nil => simp [dedupSeen]
  | cons r rs ih =>
    simp only [dedupSeen]
    split
    · exact ih seen
    · refine List.Pairwise.cons (fun b hb => ?_) (ih (r.1 :: seen))
      have := mem_dedupSeen hb
      intro h
      exact this (h ▸ List.mem_cons_self _ _)

theorem dedupSeen_eq_self {α : Type} {l : List (Int × α)}
    (hp : l.Pairwise (fun a b => a.1 ≠ b.1)) :
    ∀ seen : List Int, (∀ r ∈ l, r.1 ∉ seen) → dedupSeen seen l = l := by
  induction l with
  | nil => intro seen _; simp [dedupSeen]
  | cons r rs ih =>
    intro seen hseen
    have hr : r.1 ∉ seen := hseen r (List.mem_cons_self _ _)
    have hp' := List.pairwise_cons.mp hp
    simp only [dedupSeen, if_neg hr]
    congr 1
    refine ih hp'.2 (r.1 :: seen) (fun x hx => ?_)
    intro hm
    rcases List.mem_cons.mp hm with h | h
    · exact hp'.1 x hx h.symm
    · exact hseen x (List.mem_cons_of_mem _ hx) h

/-- A list of rows with strictly increasing dates is left unchanged by
the sort-then-dedup pipeline. -/
theorem sortDedup_eq_self {α : Type} {l : List (Int × α)}
    (h : l.Pairwise (fun a b => a.1 < b.1)) : sortDedup l = l := by
  have hsorted : List.Sorted dateLe l :=
    h.imp (fun hab => le_of_lt hab)
  have hne : l.Pairwise (fun a b : Int × α => a.1 ≠ b.1) :=
    h.imp (fun hab => ne_of_lt hab)
  unfold sortDedup dedupKeepFirst
  rw [hsorted.insertionSort_eq]
  exact dedupSeen_eq_self hne [] (by simp)

/-- The sort-then-dedup pipeline produces strictly increasing dates. -/
theorem sortDedup_pairwise_lt {α : Type} (l : List (Int × α)) :
    (sortDedup l).Pairwise (fun a b => a.1 < b.1) := by
  have hsorted : List.Sorted dateLe (List.insertionSort dateLe l) :=
    List.sorted_insertionSort dateLe l
  have hsub : (sortDedup l).Sublist (List.insertionSort dateLe l) :=
    dedupSeen_sublist [] _
  have hne : (sortDedup l).Pairwise (fun a b => a.1 ≠ b.1) :=
    dedupSeen_pairwise [] _
  have hle : (sortDedup l).Pairwise (@dateLe α) :=
    List.Pairwise.sublist hsub hsorted
  exact (hle.and hne).imp (fun h => lt_of_le_of_ne h.1 h.2)

theorem sortDedup_ne_nil {α : Type} {l : List (Int × α)} (h : l ≠ []) :
    sortDedup l ≠ [] := by
  unfold sortDedup dedupKeepFirst
  have hperm := List.perm_insertionSort dateLe l
  have : List.insertionSort dateLe l ≠ [] := by
    intro hnil
    exact h (List.Perm.nil_eq (hnil ▸ hperm)).symm
  cases hs : List.insertionSort dateLe l with
  | nil => exact absurd hs this
  | cons r rs =>
    simp [dedupSeen]

theorem prepare_rows_ne_nil {l : List (Int × Option ℚ)} (h : l ≠ []) :
    prepare_rows l ≠ [] := by
  unfold prepare_rows
  simpa using sortDedup_ne_nil h

/-- Every prepared revenue value is positive: it is
`max(fillna, 0) + 1e-6 ≥ 1e-6 > 0`. -/
theorem prepare_rows_pos {l : List (Int × Option ℚ)} {r : Int × ℚ}
    (hr : r ∈ prepare_rows l) : 0 < r.2 := by
  unfold prepare_rows at hr
  rcases List.mem_map.mp hr with ⟨x, _, hx⟩
  have h0 : (0:ℚ) ≤ max ((x.2).getD 0) 0 := le_max_right _ _
  have : (0:ℚ) < max ((x.2).getD 0) 0 + 1/1000000 := by positivity
  rw [← hx]
  exact this

theorem mem_candidateOrders {max_p max_d max_q : ℕ} (c : ℕ × ℕ × ℕ) :
    c ∈ candidateOrders max_p max_d max_q ↔
      c.1 ≤ max_p ∧ c.2.1 ≤ max_d ∧ c.2.2 ≤ max_q := by
  obtain ⟨p, d, q⟩ := c
  simp only [candidateOrders, List.mem_flatMap, List.mem_map,
    List.mem_range, Nat.lt_succ_iff, Prod.mk.injEq]
  constructor
  · rintro ⟨p', hp', d', hd', q', hq', rfl, rfl, rfl⟩
    exact ⟨hp', hd', hq'⟩
  · rintro ⟨hp, hd, hq⟩
    exact ⟨p, hp, d, hd, q, hq, rfl, rfl, rfl⟩

theorem auto_fold_none (aicO : ℕ × ℕ × ℕ → Option ℚ)
    (l : List (ℕ × ℕ × ℕ)) (st : Option ℚ × (ℕ × ℕ × ℕ))
    (h : ∀ c ∈ l, aicO c = none) :
    l.foldl (autoStep aicO) st = st := by
  induction l generalizing st with
  | nil => rfl
  | cons c t ih =>
    have hc := h c (List.mem_cons_self _ _)
    simp only [List.foldl_cons, autoStep, hc]
    exact ih st (fun x hx => h x (List.mem_cons_of_mem _ hx))

theorem auto_fold_some (aicO : ℕ × ℕ × ℕ → Option ℚ) (l : List (ℕ × ℕ × ℕ)) :
    ∀ (a0 : ℚ) (r0 : ℕ × ℕ × ℕ),
    ∃ b r, l.foldl (autoStep aicO) (some a0, r0) = (some b, r) ∧ b ≤ a0 ∧
      (∀ c ∈ l, ∀ a, aicO c = some a → b ≤ a) ∧
      ((r = r0 ∧ b = a0) ∨
        ∃ l1 l2, l = l1 ++ r :: l2 ∧ aicO r = some b ∧ b < a0 ∧
          (∀ c ∈ l1, ∀ a, aicO c = some a → b < a)) := by
  induction l with
  | nil =>
    intro a0 r0
    exact ⟨a0, r0, rfl, le_refl _, by simp, Or.inl ⟨rfl, rfl⟩⟩
  | cons c t ih =>
    intro a0 r0
    rcases hc : aicO c with _ | a
    · obtain ⟨b, r, hfold, hle, hall, hdisj⟩ := ih a0 r0
      refine ⟨b, r, ?_, hle, ?_, ?_⟩
      · simpa only [List.foldl_cons, autoStep, hc] using hfold
      · intro x hx a hxa
        rcases List.mem_cons.mp hx with h | h
        · rw [h, hc] at hxa; cases hxa
        · exact hall x h a hxa
      · rcases hdisj with h | ⟨l1, l2, hdec, hr, hlt, hstrict⟩
        · exact Or.inl h
        · refine Or.inr ⟨c :: l1, l2, by rw [hdec, List.cons_append], hr, hlt, ?_⟩
          intro x hx a hxa
          rcases List.mem_cons.mp hx with h | h
          · rw [h, hc] at hxa; cases hxa
          · exact hstrict x h a hxa
    · by_cases hlt : a < a0
      · have hstep : autoStep aicO (some a0, r0) c = (some a, c) := by
          simp [autoStep, hc, ltBest, hlt]
        obtain ⟨b, r, hfold, hle, hall, hdisj⟩ := ih a c
        refine ⟨b, r, ?_, le_of_lt (lt_of_le_of_lt hle hlt), ?_, ?_⟩
        · simpa only [List.foldl_cons, hstep] using hfold
        · intro x hx a' hxa
          rcases List.mem_cons.mp hx with h | h
          · rw [h, hc] at hxa
            cases hxa
            exact hle
          · exact hall x h a' hxa
        · rcases hdisj with ⟨hr, hb⟩ | ⟨l1, l2, hdec, hr, hlt', hstrict⟩
          · refine Or.inr ⟨[], t, by simp [hr], ?_, hb ▸ hlt, by simp⟩
            rw [hr, hc, hb]
          · refine Or.inr ⟨c :: l1, l2, by rw [hdec, List.cons_append], hr, lt_trans hlt' hlt, ?_⟩
            intro x hx a' hxa
            rcases List.mem_cons.mp hx with h | h
            · rw [h, hc] at hxa
              cases hxa
              exact hlt'
            · exact hstrict x h a' hxa
      · have hstep : autoStep aicO (some a0, r0) c = (some a0, r0) := by
          simp [autoStep, hc, ltBest, hlt]
        obtain ⟨b, r, hfold, hle, hall, hdisj⟩ := ih a0 r0
        refine ⟨b, r, ?_, hle, ?_, ?_⟩
        · simpa only [List.foldl_cons, hstep] using hfold
        · intro x hx a' hxa
          rcases List.mem_cons.mp hx with h | h
          · rw [h, hc] at hxa
            cases hxa
            exact le_trans hle (le_of_not_lt hlt)
          · exact hall x h a' hxa
        · rcases hdisj with h | ⟨l1, l2, hdec, hr, hlt', hstrict⟩
          · exact Or.inl h
          · refine Or.inr ⟨c :: l1, l2, by rw [hdec, List.cons_append], hr, hlt', ?_⟩
            intro x hx a' hxa
            rcases List.mem_cons.mp hx with h | h
            · rw [h, hc] at hxa
              cases hxa
              exact lt_of_lt_of_le hlt' (le_of_not_lt hlt)
            · exact hstrict x h a' hxa

theorem auto_fold_main (aicO : ℕ × ℕ × ℕ → Option ℚ) (l : List (ℕ × ℕ × ℕ)) :
    (l.foldl (autoStep aicO) (none, (1, 1, 1)) = (none, (1, 1, 1)) ∧
      ∀ c ∈ l, aicO c = none) ∨
    (∃ b r l1 l2, l.foldl (autoStep aicO) (none, (1, 1, 1)) = (some b, r) ∧
      l = l1 ++ r :: l2 ∧ aicO r = some b ∧
      (∀ c ∈ l1, ∀ a, aicO c = some a → b < a) ∧
      (∀ c ∈ l2, ∀ a, aicO c = some a → b ≤ a)) := by
  induction l with
  | nil => exact Or.inl ⟨rfl, by simp⟩
  | cons c t ih =>
    rcases hc : aicO c with _ | a
    · have hstep : autoStep aicO (none, (1, 1, 1)) c = (none, (1, 1, 1)) := by
        simp [autoStep, hc]
      rcases ih with ⟨hfold, hfail⟩ | ⟨b, r, l1, l2, hfold, hdec, hr, hstrict, hrest⟩
      · refine Or.inl ⟨?_, ?_⟩
        · simpa only [List.foldl_cons, hstep] using hfold
        · intro x hx
          rcases List.mem_cons.mp hx with h | h
          · rw [h]; exact hc
          · exact hfail x h
      · refine Or.inr ⟨b, r, c :: l1, l2, ?_, by rw [hdec, List.cons_append], hr, ?_, hrest⟩
        · simpa only [List.foldl_cons, hstep] using hfold
        · intro x hx a hxa
          rcases List.mem_cons.mp hx with h | h
          · rw [h, hc] at hxa; cases hxa
          · exact hstrict x h a hxa
    · have hstep : autoStep aicO (none, (1, 1, 1)) c = (some a, c) := by
        simp [autoStep, hc, ltBest]
      obtain ⟨b, r, hfold, hle, hall, hdisj⟩ := auto_fold_some aicO t a c
      refine Or.inr ?_
      rcases hdisj with ⟨hr, hb⟩ | ⟨l1, l2, hdec, hr, hba, hstrict⟩
      · refine ⟨b, r, [], t, ?_, by simp [hr], ?_, by simp, hall⟩
        · simpa only [List.foldl_cons, hstep] using hfold
        · rw [hr, hc, hb]
      · refine ⟨b, r, c :: l1, l2, ?_, by rw [hdec, List.cons_append], hr, ?_, ?_⟩
        · simpa only [List.foldl_cons, hstep] using hfold
        · intro x hx a' hxa
          rcases List.mem_cons.mp hx with h | h
          · rw [h, hc] at hxa
            cases hxa
            exact hba
          · exact hstrict x h a' hxa
        · intro x hx a' hxa
          exact hall x (by rw [hdec]; exact List.mem_append_right _ (List.mem_cons_of_mem _ hx)) a' hxa

/-! Claim C10: totality and flag semantics of the stationarity check. -/

/-- C10: for every pair of test oracles and every input sequence,
`check_stationarity` returns a record containing all three flags with
`is_stationary` equal to the conjunction of `adf_stationary` and
`kpss_stationary`; when either underlying test raises, all three flags
are `false` instead of the exception propagating; and when both succeed
the flags follow the 5% significance rules. -/
theorem check_stationarity_total (adfO kpssO : TestOracle)
    (series : List (Option ℚ)) :
    (check_stationarity adfO kpssO series).is_stationary
      = ((check_stationarity adfO kpssO series).adf_stationary
          && (check_stationarity adfO kpssO series).kpss_stationary) ∧
    ((adfO (series.filterMap id) = none ∨ kpssO (series.filterMap id) = none) →
      check_stationarity adfO kpssO series = ⟨false, false, false⟩) ∧
    (∀ pa pk, adfO (series.filterMap id) = some pa →
      kpssO (series.filterMap id) = some pk →
      check_stationarity adfO kpssO series =
        ⟨decide (pa < 5/100), decide (pk > 5/100),
         decide (pa < 5/100) && decide (pk > 5/100)⟩) := by
  rcases ha : adfO (series.filterMap id) with _ | pa <;>
    rcases hk : kpssO (series.filterMap id) with _ | pk <;>
      simp [check_stationarity, ha, hk]

/-- Witness for C10 at a concrete failing ADF oracle: the except branch
yields the all-false record. -/
theorem check_stationarity_total_witness :
    check_stationarity (fun _ => none) (fun _ => some 1) [some 1, none]
      = ⟨false, false, false⟩ :=
  (check_stationarity_total (fun _ => none) (fun _ => some 1)
    [some 1, none]).2.1 (Or.inl rfl)

/-! Claim C1: forecasting before any successful fit. -/

/-- C1 counterexample: with no fitted model (`fitted_model = None`),
`forecast` returns the empty DataFrame — the `ValueError` raised at
line 191 is swallowed by the blanket `except`, so no typed error
reaches the caller and the result is exactly the silent empty frame
the claim rules out. -/
theorem forecast_before_fit_returns_empty :
    forecast { fitted_model := none, original_data := [(0, 1)] } 7 (95/100)
      = [] := rfl

/-- C1 (amended): a forecast requested before any successful fit always
returns the empty DataFrame `[]`; no error of any kind is surfaced. -/
theorem forecast_without_fit_empty (st : ForecasterState)
    (h : st.fitted_model = none) (steps : ℕ) (confidence_level : ℚ) :
    forecast st steps confidence_level = [] := by
  unfold forecast
  rw [h]

/-- Witness for the amended C1 at a concrete unfitted state. -/
theorem forecast_without_fit_empty_witness :
    ({ fitted_model := none, original_data := [((0 : Int), (1 : ℚ))] }
        : ForecasterState).fitted_model = none ∧
    forecast { fitted_model := none, original_data := [((0 : Int), (1 : ℚ))] }
        5 (1/2) = [] :=
  ⟨rfl, forecast_without_fit_empty _ rfl 5 (1/2)⟩

/-! Claim C9: effect of an estimation call on the caller's data. -/

/-- C9 counterexample: `prepare_data` (invoked by every `fit_model` and
`backtest` call) mutates a caller frame that is not yet date-indexed:
lines 40-41 overwrite the `date` column and `set_index(..., inplace=True)`
on the caller's object, so the caller's input is changed by the call. -/
theorem prepare_data_mutates_caller :
    (prepare_data { dateIndexed := false, rows := [(0, some 1)] }).1
      ≠ { dateIndexed := false, rows := [(0, some 1)] } := by
  decide

/-- C9 (amended): an estimation call leaves a date-indexed caller frame
unchanged, but mutates a non-date-indexed caller frame in place by
setting its parsed date column as the index. -/
theorem prepare_data_caller_frame (f : DataFrame) :
    (f.dateIndexed = true → (prepare_data f).1 = f) ∧
    (f.dateIndexed = false →
      (prepare_data f).1 = { f with dateIndexed := true } ∧
      (prepare_data f).1 ≠ f) := by
  refine ⟨fun h => by simp [prepare_data, h],
          fun h => ⟨by simp [prepare_data, h], ?_⟩⟩
  simp only [prepare_data, h, Bool.false_eq_true, if_false]
  intro heq
  have hfield := congrArg DataFrame.dateIndexed heq
  simp [h] at hfield

/-- Witness for the amended C9 at concrete indexed and raw frames. -/
theorem prepare_data_caller_frame_witness :
    (prepare_data { dateIndexed := true, rows := [] }).1
        = { dateIndexed := true, rows := [] } ∧
    (prepare_data { dateIndexed := false, rows := [] }).1
        ≠ { dateIndexed := false, rows := [] } :=
  ⟨(prepare_data_caller_frame _).1 rfl,
   ((prepare_data_caller_frame _).2 rfl).2⟩

/-! Claim C5: behaviour of `fit_model` on short series. -/

/-- C5 counterexample: `fit_model` contains no minimum-observation
check, so on a 10-observation series with a SARIMAX estimation that
succeeds (statsmodels does fit such a series) the fit returns `True` —
it neither raises a `ModelFitError` nor otherwise fails, contradicting
the claim that a 10-observation series never yields a successful fit. -/
theorem fit_model_ten_obs_returns_true :
    frame10.rows.length = 10 ∧
    (fit_model constFit cfg0 { fitted_model := none, original_data := [] }
        frame10 none none).2 = true :=
  ⟨rfl, rfl⟩

/-- C5 (amended): `fit_model` signals failure by returning `False`,
never by a typed error, and succeeds exactly when the underlying
SARIMAX estimation succeeds on the prepared values with the effective
orders — independent of the number of observations. -/
theorem fit_model_success_iff_sarimax (sfit : SarimaxFit) (cfg : Config)
    (st : ForecasterState) (data : DataFrame)
    (order seasonal_order : Option (List ℤ)) :
    (fit_model sfit cfg st data order seasonal_order).2 = true ↔
      (sfit ((prepare_rows data.rows).map Prod.snd)
        (effective_orders sfit cfg (prepare_rows data.rows) order seasonal_order).1
        (effective_orders sfit cfg (prepare_rows data.rows) order seasonal_order).2).isSome
      = true := by
  simp only [fit_model]
  rcases h : sfit ((prepare_rows data.rows).map Prod.snd)
      (effective_orders sfit cfg (prepare_rows data.rows) order seasonal_order).1
      (effective_orders sfit cfg (prepare_rows data.rows) order seasonal_order).2
    with _ | fm <;> simp [h]

/-- Witness for the amended C5: the 10-observation fit succeeds because
the oracle does. -/
theorem fit_model_success_iff_sarimax_witness :
    (fit_model constFit cfg0 { fitted_model := none, original_data := [] }
        frame10 none none).2 = true :=
  (fit_model_success_iff_sarimax constFit cfg0
    { fitted_model := none, original_data := [] } frame10 none none).mpr rfl

/-! Claim C3: the automatic order search. -/

/-- C3: `auto_arima_order` scans exactly the cuboid
`[0..max_p] × [0..max_d] × [0..max_q]` in ascending enumeration order
(first conjunct), always fits candidates with seasonal order
`(0,0,0,0)` (second conjunct), returns `(1,1,1)` when every candidate
fails (third conjunct), and otherwise returns a successful candidate
whose AIC is at most every successful candidate's AIC, with every
earlier candidate either failing or having strictly larger AIC — the
first-wins tie-break of the strict `<` comparison (fourth conjunct). -/
theorem auto_arima_order_spec (sfit : SarimaxFit) (data : List ℚ)
    (max_p max_d max_q : ℕ) :
    (∀ c : ℕ × ℕ × ℕ, c ∈ candidateOrders max_p max_d max_q ↔
      c.1 ≤ max_p ∧ c.2.1 ≤ max_d ∧ c.2.2 ≤ max_q) ∧
    (∀ c : ℕ × ℕ × ℕ, aicOf sfit data c
      = (sfit data [(c.1 : ℤ), (c.2.1 : ℤ), (c.2.2 : ℤ)] [0, 0, 0, 0]).map
          FittedModel.aic) ∧
    ((∀ c ∈ candidateOrders max_p max_d max_q, aicOf sfit data c = none) →
      auto_arima_order sfit data max_p max_d max_q = (1, 1, 1)) ∧
    ((∃ c ∈ candidateOrders max_p max_d max_q, (aicOf sfit data c).isSome) →
      ∃ b l1 l2,
        candidateOrders max_p max_d max_q
          = l1 ++ auto_arima_order sfit data max_p max_d max_q :: l2 ∧
        aicOf sfit data (auto_arima_order sfit data max_p max_d max_q)
          = some b ∧
        (∀ c ∈ l1, ∀ a, aicOf sfit data c = some a → b < a) ∧
        (∀ c ∈ l2, ∀ a, aicOf sfit data c = some a → b ≤ a)) := by
  refine ⟨fun c => mem_candidateOrders c, fun c => rfl, ?_, ?_⟩
  · intro hfail
    unfold auto_arima_order
    rw [auto_fold_none _ _ _ hfail]
  · rintro ⟨c, hc, hsome⟩
    rcases auto_fold_main (aicOf sfit data) (candidateOrders max_p max_d max_q)
      with ⟨_, hfail⟩ | ⟨b, r, l1, l2, hfold, hdec, hr, hstrict, hrest⟩
    · rw [hfail c hc] at hsome
      cases hsome
    · have hres : auto_arima_order sfit data max_p max_d max_q = r := by
        unfold auto_arima_order
        rw [hfold]
      exact ⟨b, l1, l2, by rw [hres]; exact hdec, by rw [hres]; exact hr,
        hstrict, hrest⟩

/-- Witness for C3 at the all-fail oracle with the default bounds: the
search returns the `(1,1,1)` fallback. -/
theorem auto_arima_order_spec_witness :
    auto_arima_order (fun _ _ _ => none) [] 3 2 3 = (1, 1, 1) :=
  (auto_arima_order_spec (fun _ _ _ => none) [] 3 2 3).2.2.1 (fun _ _ => rfl)

/-! Claim C2: shape of a successful forecast. -/

/-- A successful `fit_model` call stores some fitted model together with
the prepared input series in the forecaster state. -/
theorem fit_model_success_state {sfit : SarimaxFit} {cfg : Config}
    {st0 st : ForecasterState} {data : DataFrame}
    {order seasonal_order : Option (List ℤ)}
    (h : fit_model sfit cfg st0 data order seasonal_order = (st, true)) :
    ∃ fm, st = { fitted_model := some fm,
                 original_data := prepare_rows data.rows } := by
  simp only [fit_model] at h
  rcases hsf : sfit ((prepare_rows data.rows).map Prod.snd)
      (effective_orders sfit cfg (prepare_rows data.rows) order seasonal_order).1
      (effective_orders sfit cfg (prepare_rows data.rows) order seasonal_order).2
    with _ | fm
  · rw [hsf] at h
    simp at h
  · rw [hsf] at h
    exact ⟨fm, ((Prod.mk.injEq _ _ _ _).mp h).1.symm⟩

/-- C2: after a successful fit on a non-empty series, `forecast h`
returns exactly `h` rows, and the `i`-th row's date is
`last date of the fitted series + 1 + i` — so the dates are strictly
increasing consecutive calendar days starting the day after the series
the model was fit on ends. -/
theorem forecast_rows_contiguous (sfit : SarimaxFit) (cfg : Config)
    (st0 : ForecasterState) (data : DataFrame)
    (order seasonal_order : Option (List ℤ)) (st : ForecasterState)
    (hfit : fit_model sfit cfg st0 data order seasonal_order = (st, true))
    (hne : data.rows ≠ []) (steps : ℕ) (confidence_level : ℚ) :
    ∃ last, st.original_data.getLast? = some last ∧
      (forecast st steps confidence_level).length = steps ∧
      ∀ i (hi : i < (forecast st steps confidence_level).length),
        ((forecast st steps confidence_level).get ⟨i, hi⟩).date
          = last.1 + 1 + (i : Int) := by
  obtain ⟨fm, rfl⟩ := fit_model_success_state hfit
  have hprep : prepare_rows data.rows ≠ [] := prepare_rows_ne_nil hne
  obtain ⟨last, hlast⟩ : ∃ last, (prepare_rows data.rows).getLast? = some last := by
    cases hl : (prepare_rows data.rows).getLast? with
    | none => exact absurd (List.getLast?_eq_none_iff.mp hl) hprep
    | some a => exact ⟨a, rfl⟩
  refine ⟨last, hlast, ?_, ?_⟩
  · simp [forecast, hlast]
  · intro i hi
    simp [forecast, hlast, List.get_eq_getElem, List.getElem_map,
      List.getElem_range]

/-- Witness for C2: a concrete successful fit on a one-day series,
forecast four days ahead. -/
theorem forecast_rows_contiguous_witness :
    fit_model constFit cfg0 { fitted_model := none, original_data := [] }
        frame1 none none
      = ({ fitted_model := some fmConst,
           original_data := prepare_rows frame1.rows }, true) ∧
    frame1.rows ≠ [] ∧
    (∃ last,
      ({ fitted_model := some fmConst,
         original_data := prepare_rows frame1.rows }
          : ForecasterState).original_data.getLast? = some last ∧
      (forecast { fitted_model := some fmConst,
                  original_data := prepare_rows frame1.rows }
          4 (95/100)).length = 4 ∧
      ∀ i (hi : i < (forecast { fitted_model := some fmConst,
                                original_data := prepare_rows frame1.rows }
          4 (95/100)).length),
        ((forecast { fitted_model := some fmConst,
                     original_data := prepare_rows frame1.rows }
            4 (95/100)).get ⟨i, hi⟩).date = last.1 + 1 + (i : Int)) :=
  ⟨rfl, by simp [frame1],
   forecast_rows_contiguous constFit cfg0
     { fitted_model := none, original_data := [] } frame1 none none
     { fitted_model := some fmConst, original_data := prepare_rows frame1.rows }
     rfl (by simp [frame1]) 4 (95/100)⟩

/-! Claim C6: idempotence of the series preparation. -/

/-- C6 counterexample: preparing a one-day series twice differs from
preparing it once, because the `+ 1e-6` constant of line 60 is added on
every application. -/
theorem prepare_rows_not_idempotent :
    prepare_rows (reinject (prepare_rows [(0, some 5)]))
      ≠ prepare_rows [(0, some 5)] := by
  have h1 : max (5 : ℚ) 0 = 5 := max_eq_left (by norm_num)
  have h2 : max ((5 : ℚ) + 1/1000000) 0 = 5 + 1/1000000 :=
    max_eq_left (by positivity)
  simp only [prepare_rows, reinject, sortDedup, dedupKeepFirst, dedupSeen,
    List.insertionSort, List.orderedInsert, prepareValue, List.map_cons,
    List.map_nil, Option.getD_some, List.not_mem_nil, if_false, h1, h2,
    List.cons.injEq, Prod.mk.injEq, and_true, true_and, ne_eq]
  intro h
  norm_num at h

/-- C6 (amended): the preparation is idempotent in dates, ordering,
deduplication, fill and clip, but not in values — a second application
returns the same rows with the `1e-6` constant added once more. -/
theorem prepare_rows_twice (l : List (Int × Option ℚ)) :
    prepare_rows (reinject (prepare_rows l))
      = (prepare_rows l).map (fun r => (r.1, r.2 + 1/1000000)) := by
  have hstrict : (prepare_rows l).Pairwise (fun a b => a.1 < b.1) := by
    unfold prepare_rows
    exact List.pairwise_map.mpr (sortDedup_pairwise_lt l)
  have hstrict2 : (reinject (prepare_rows l)).Pairwise (fun a b => a.1 < b.1) := by
    unfold reinject
    exact List.pairwise_map.mpr hstrict
  show (sortDedup (reinject (prepare_rows l))).map (fun r => (r.1, prepareValue r.2))
      = (prepare_rows l).map (fun r => (r.1, r.2 + 1/1000000))
  rw [sortDedup_eq_self hstrict2]
  unfold reinject
  rw [List.map_map]
  refine List.map_congr_left (fun x hx => ?_)
  have hpos := prepare_rows_pos hx
  simp only [Function.comp, Option.getD_some, prepareValue]
  rw [max_eq_left (le_of_lt hpos)]

/-- Witness for the amended C6 at a concrete one-day series. -/
theorem prepare_rows_twice_witness :
    prepare_rows (reinject (prepare_rows [((0 : Int), some (7 : ℚ))]))
      = (prepare_rows [((0 : Int), some (7 : ℚ))]).map
          (fun r => (r.1, r.2 + 1/1000000)) :=
  prepare_rows_twice [((0 : Int), some (7 : ℚ))]

/-! Claim C8: outlier capping in the cleaning step. -/

/-- C8: the cleaning step the pipeline applies before forecasting caps
extreme outliers: the output has one value per input value; every
output value is at most the threshold `10 × (95th percentile)`; an
input value strictly above the threshold is replaced by the threshold
while a value at most the threshold is kept unchanged; and the reported
capped-point count is the number of values above the threshold. -/
theorem clean_revenue_caps_outliers (vs : List (Option ℚ)) :
    (clean_revenue vs).length = (fillClip vs).length ∧
    (∀ x ∈ clean_revenue vs, x ≤ outlier_threshold (fillClip vs)) ∧
    (∀ i (hf : i < (fillClip vs).length) (hc : i < (clean_revenue vs).length),
      (outlier_threshold (fillClip vs) < (fillClip vs).get ⟨i, hf⟩ →
        (clean_revenue vs).get ⟨i, hc⟩ = outlier_threshold (fillClip vs)) ∧
      ((fillClip vs).get ⟨i, hf⟩ ≤ outlier_threshold (fillClip vs) →
        (clean_revenue vs).get ⟨i, hc⟩ = (fillClip vs).get ⟨i, hf⟩)) ∧
    cappedOutlierCount vs
      = ((fillClip vs).filter
          (fun x => decide (outlier_threshold (fillClip vs) < x))).length := by
  by_cases hany : (fillClip vs).any
      (fun x => decide (outlier_threshold (fillClip vs) < x))
  · have hclean : clean_revenue vs
        = (fillClip vs).map (fun x => if outlier_threshold (fillClip vs) < x
            then outlier_threshold (fillClip vs) else x) := by
      unfold clean_revenue
      rw [if_pos hany]
    refine ⟨by rw [hclean]; simp, ?_, ?_, ?_⟩
    · intro x hx
      rw [hclean] at hx
      rcases List.mem_map.mp hx with ⟨y, _, hy⟩
      by_cases hlt : outlier_threshold (fillClip vs) < y
      · rw [← hy, if_pos hlt]
      · rw [← hy, if_neg hlt]
        exact le_of_not_lt hlt
    · intro i hf hc
      constructor
      · intro hlt
        simp only [hclean, List.get_eq_getElem, List.getElem_map]
        rw [if_pos (by simpa using hlt)]
      · intro hle
        simp only [hclean, List.get_eq_getElem, List.getElem_map]
        rw [if_neg (by simpa using not_lt.mpr hle)]
    · unfold cappedOutlierCount
      exact List.countP_eq_length_filter _ _
  · have hclean : clean_revenue vs = fillClip vs := by
      unfold clean_revenue
      rw [if_neg hany]
    have hall : ∀ x ∈ fillClip vs, ¬ outlier_threshold (fillClip vs) < x := by
      intro x hx
      intro hlt
      exact hany (List.any_eq_true.mpr ⟨x, hx, by simpa using hlt⟩)
    refine ⟨by rw [hclean], ?_, ?_, ?_⟩
    · intro x hx
      rw [hclean] at hx
      exact le_of_not_lt (hall x hx)
    · intro i hf hc
      constructor
      · intro hlt
        exact absurd hlt (hall _ (List.get_mem _ _ _))
      · intro _
        simp only [List.get_eq_getElem]
        exact List.getElem_of_eq hclean hc
    · unfold cappedOutlierCount
      exact List.countP_eq_length_filter _ _

/-- Witness for C8 at a concrete three-value column. -/
theorem clean_revenue_caps_outliers_witness :
    (∀ x ∈ clean_revenue [some 1, some 2, none],
      x ≤ outlier_threshold (fillClip [some 1, some 2, none])) ∧
    cappedOutlierCount [some 1, some 2, none]
      = ((fillClip [some 1, some 2, none]).filter
          (fun x => decide (outlier_threshold (fillClip [some 1, some 2, none]) < x))).length :=
  ⟨(clean_revenue_caps_outliers [some 1, some 2, none]).2.1,
   (clean_revenue_caps_outliers [some 1, some 2, none]).2.2.2⟩

/-! Claims C4 and C7: backtest failure modes and metrics. -/

/-- Any row of the test suffix of the split is a row of the prepared
series. -/
theorem mem_of_backtestSplit_snd {prepared : List (Int × ℚ)} {td : ℕ}
    {x : Int × ℚ} (hx : x ∈ (backtestSplit prepared td).2) : x ∈ prepared := by
  unfold backtestSplit at hx
  split at hx
  · exact hx
  · exact (List.drop_sublist _ _).subset hx

/-- Structure of a successful backtest: the result's train/test fields
are the split of the prepared series, the metrics are computed from the
aligned pairs of its own test and forecast fields, the training prefix
passed the 30-observation guard, and at least one aligned pair
survived. -/
theorem backtest_some_elim {sfit : SarimaxFit} {cfg : Config}
    {data : DataFrame} {test_months : ℕ} {r : BacktestResult}
    (h : backtest sfit cfg data test_months = some r) :
    r.train_data = (backtestSplit (prepare_rows data.rows) (test_months * 30)).1 ∧
    r.test_data = (backtestSplit (prepare_rows data.rows) (test_months * 30)).2 ∧
    r.metrics = metricsOf (alignedPairs r.test_data r.forecast_data) ∧
    30 ≤ (backtestSplit (prepare_rows data.rows) (test_months * 30)).1.length ∧
    alignedPairs r.test_data r.forecast_data ≠ [] := by
  simp only [backtest] at h
  split at h
  case isTrue => cases h
  case isFalse h30 =>
    split at h
    case h_1 => cases h
    case h_2 st heq =>
      split at h
      case isTrue => cases h
      case isFalse hfdf =>
        split at h
        case isTrue => cases h
        case isFalse hpairs =>
          injection h with h
          subst h
          exact ⟨rfl, rfl, rfl, not_lt.mp h30,
            by simpa [List.isEmpty_iff] using hpairs⟩

/-- C4 (amended): a training prefix shorter than 30 observations makes
`backtest` return the empty dict (the `ValueError` of line 241 is
caught by the blanket handler), and conversely every successful
backtest result has a training prefix of at least 30 observations and
at least one valid aligned pair — the zero-pair case likewise returns
the empty dict instead of a typed `BacktestError`. -/
theorem backtest_failure_modes (sfit : SarimaxFit) (cfg : Config)
    (data : DataFrame) (test_months : ℕ) :
    ((backtestSplit (prepare_rows data.rows) (test_months * 30)).1.length < 30 →
      backtest sfit cfg data test_months = none) ∧
    (∀ r, backtest sfit cfg data test_months = some r →
      30 ≤ r.train_data.length ∧
      alignedPairs r.test_data r.forecast_data ≠ []) := by
  constructor
  · intro h30
    simp only [backtest]
    rw [if_pos h30]
  · intro r hr
    obtain ⟨ht, -, -, h30, hpairs⟩ := backtest_some_elim hr
    refine ⟨?_, hpairs⟩
    rw [ht]
    exact h30

set_option maxRecDepth 20000 in
/-- C4 counterexample: a 100-day series with a 3-month (90-day) test
window leaves a 10-day training prefix; the claim requires a
`BacktestError` surfaced to the caller, but the call returns the empty
dict. -/
theorem backtest_insufficient_train_returns_empty :
    frame100.rows.length = 100 ∧
    backtest constFit cfg0 frame100 3 = none :=
  ⟨rfl, rfl⟩

set_option maxRecDepth 20000 in
/-- Witness for the amended C4: the concrete 10-day training prefix is
shorter than 30, so the backtest returns the empty dict. -/
theorem backtest_failure_modes_witness :
    (backtestSplit (prepare_rows frame100.rows) (3 * 30)).1.length < 30 ∧
    backtest constFit cfg0 frame100 3 = none :=
  ⟨by decide, (backtest_failure_modes constFit cfg0 frame100 3).1 (by decide)⟩

/-- Mean of a list of non-negative rationals is non-negative. -/
theorem qmean_nonneg {l : List ℚ} (h : ∀ x ∈ l, 0 ≤ x) : 0 ≤ qmean l :=
  div_nonneg (List.sum_nonneg h) (Nat.cast_nonneg _)

theorem metricsOf_mae_nonneg (pairs : List (ℚ × ℚ)) :
    0 ≤ (metricsOf pairs).mae := by
  refine qmean_nonneg (fun x hx => ?_)
  rcases List.mem_map.mp hx with ⟨p, -, rfl⟩
  exact abs_nonneg _

theorem metricsOf_mse_nonneg (pairs : List (ℚ × ℚ)) :
    0 ≤ (metricsOf pairs).mse := by
  refine qmean_nonneg (fun x hx => ?_)
  rcases List.mem_map.mp hx with ⟨p, -, rfl⟩
  exact sq_nonneg _

theorem metricsOf_mape_nonneg (pairs : List (ℚ × ℚ)) :
    0 ≤ (metricsOf pairs).mape := by
  refine mul_nonneg (qmean_nonneg (fun x hx => ?_)) (by norm_num)
  rcases List.mem_map.mp hx with ⟨p, -, rfl⟩
  exact abs_nonneg _

/-- When every actual value is non-negative, the code's MAPE
(`|…/(actual + 1e-8)|`) coincides with the specification's MAPE
(`|…|/(|actual| + 1e-8)`). -/
theorem metricsOf_mape_eq {pairs : List (ℚ × ℚ)}
    (hpos : ∀ p ∈ pairs, 0 ≤ p.1) :
    (metricsOf pairs).mape = mapeSpec pairs := by
  unfold metricsOf mapeSpec
  simp only
  congr 1
  refine congrArg qmean (List.map_congr_left (fun p hp => ?_))
  have ha := hpos p hp
  rw [abs_div, abs_of_nonneg (add_nonneg ha (by norm_num)),
    abs_of_nonneg ha]

/-- Every aligned actual value of a successful backtest is
non-negative: it comes from the prepared test suffix. -/
theorem backtest_pair_actual_nonneg {sfit : SarimaxFit} {cfg : Config}
    {data : DataFrame} {test_months : ℕ} {r : BacktestResult}
    (h : backtest sfit cfg data test_months = some r) :
    ∀ p ∈ alignedPairs r.test_data r.forecast_data, 0 ≤ p.1 := by
  obtain ⟨-, ht, -, -, -⟩ := backtest_some_elim h
  intro p hp
  unfold alignedPairs at hp
  rcases List.mem_filterMap.mp hp with ⟨⟨x, y⟩, hxy, hmap⟩
  obtain ⟨row, -, hrow⟩ := Option.map_eq_some'.mp hmap
  have hx : x ∈ r.test_data := (List.of_mem_zip hxy).1
  have hx0 : 0 < x.2 := by
    rw [ht] at hx
    exact prepare_rows_pos (mem_of_backtestSplit_snd hx)
  rw [← hrow]
  exact le_of_lt hx0

/-- C7: the metrics record of every successful backtest satisfies
`MAE ≥ 0`, `MSE ≥ 0`, `MAPE ≥ 0`, the stored `rmse = sqrt(mse)` value
is the non-negative square root of MSE, and the code's MAPE equals the
specification formula `mean(|actual − forecast| / (|actual| + 1e-8)) × 100`
over the aligned pairs (the prepared actual values are non-negative). -/
theorem backtest_metrics_spec (sfit : SarimaxFit) (cfg : Config)
    (data : DataFrame) (test_months : ℕ) (r : BacktestResult)
    (h : backtest sfit cfg data test_months = some r) :
    r.metrics = metricsOf (alignedPairs r.test_data r.forecast_data) ∧
    0 ≤ r.metrics.mae ∧ 0 ≤ r.metrics.mse ∧ 0 ≤ r.metrics.mape ∧
    0 ≤ Real.sqrt ((r.metrics.mse : ℚ) : ℝ) ∧
    Real.sqrt ((r.metrics.mse : ℚ) : ℝ) ^ 2 = ((r.metrics.mse : ℚ) : ℝ) ∧
    r.metrics.mape = mapeSpec (alignedPairs r.test_data r.forecast_data) := by
  obtain ⟨-, -, hm, -, -⟩ := backtest_some_elim h
  have hpos := backtest_pair_actual_nonneg h
  have hmse : 0 ≤ r.metrics.mse := by
    rw [hm]
    exact metricsOf_mse_nonneg _
  refine ⟨hm, ?_, hmse, ?_, Real.sqrt_nonneg _, ?_, ?_⟩
  · rw [hm]
    exact metricsOf_mae_nonneg _
  · rw [hm]
    exact metricsOf_mape_nonneg _
  · exact Real.sq_sqrt (by exact_mod_cast hmse)
  · rw [hm]
    exact metricsOf_mape_eq hpos

/-- Witness for C7: the concrete 60-day backtest with a one-month test
window succeeds, and its metrics are certified non-negative by the
theorem. -/
theorem backtest_metrics_spec_witness :
    backtest constFit cfg0 frame60 1 = some bt60result ∧
    0 ≤ bt60result.metrics.mae ∧ 0 ≤ bt60result.metrics.mape :=
  ⟨rfl,
   (backtest_metrics_spec constFit cfg0 frame60 1 bt60result rfl).2.1,
   (backtest_metrics_spec constFit cfg0 frame60 1 bt60result rfl).2.2.2.1⟩
